import Mathlib

/-!
Shallow embedding of the organelle runtime (src/src/soma.rs and
src/src/organelle.rs) with theorems checking its specification.

Handles (Rust Uuid v4 values, compared only for equality) are modelled as
natural numbers; channel endpoints (futures mpsc senders, compared only by
identity of the underlying channel) are modelled as natural-number channel
ids.  Fallible Rust functions returning Result become Except String; Rust
panics (assert failures, unreachable arms) become explicit crash outcomes.
-/

namespace OrganelleSpec

/-- Modelled from the spec: Handle is an opaque 128-bit identifier compared
bitwise (its definition lives in the crate root, which is not under src/).
Only equality is used, so a natural number suffices. -/
abbrev Handle := Nat

/-- Identity of one mpsc channel; two senders are the same endpoint exactly
when they were cloned from the same channel. -/
abbrev ChanId := Nat

/-- Modelled from the spec: Effector is a triple of the owning soma's
handle, a channel sender, and a reactor handle (definition in the crate
root, not under src/).  The reactor handle carries no observable state and
is omitted. -/
structure Effector where
  thisSoma : Handle
  sender : ChanId
  deriving DecidableEq, Repr

/-! ## soma.rs: the constraint helper -/

/-- src/src/soma.rs Constraint: constraints on how connections can be made. -/
inductive Constraint (R : Type) where
  | RequireOne (role : R)
  | Variadic (role : R)
  deriving DecidableEq, Repr

/-- src/src/soma.rs ConstraintHandle. -/
inductive ConstraintHandle where
  | One (h : Handle)
  | Many (hs : List Handle)
  | Empty
  deriving DecidableEq, Repr

/-- src/src/soma.rs ConstraintMap: HashMap from role to (bound handles,
declared constraint), modelled as an association list (iteration order is
irrelevant to every property proved below). -/
abbrev ConstraintMap (R : Type) := List (R × (ConstraintHandle × Constraint R))

/-- Modelled from the spec: Protocol is the impulse enumeration of the older
vocabulary used by soma.rs (Init carries the effector; the variant list
follows the spec's impulse list; the enumeration itself lives in the crate
root, not under src/). -/
inductive Protocol (M R : Type) where
  | Init (eff : Effector)
  | AddInput (input : Handle) (role : R)
  | AddOutput (output : Handle) (role : R)
  | Start
  | Payload (src dest : Handle) (msg : M)
  | Signal (src : Handle) (msg : M)
  | Stop
  | Err (e : String)
  | Probe (dest : Handle)
  deriving DecidableEq, Repr

variable {M R : Type}

/-- HashMap::get on the association list. -/
def lookupRole [DecidableEq R] : ConstraintMap R → R → Option (ConstraintHandle × Constraint R)
  | [], _ => none
  | e :: rest, role => if e.1 = role then some e.2 else lookupRole rest role

/-- HashMap::contains_key on the association list. -/
def containsRole [DecidableEq R] (map : ConstraintMap R) (role : R) : Bool :=
  (lookupRole map role).isSome

/-- In-place update of the entry for a key (the effect of writing through
HashMap::get_mut). -/
def replaceRole [DecidableEq R] : ConstraintMap R → R → (ConstraintHandle × Constraint R) → ConstraintMap R
  | [], _, _ => []
  | e :: rest, role, v => if e.1 = role then (role, v) :: rest else e :: replaceRole rest role v

/-- src/src/soma.rs Soma::create_roles, as a left fold over the constraint
list: inserting a role that is already present is an error. -/
def createRolesAux [DecidableEq R] (map : ConstraintMap R) : List (Constraint R) → Except String (ConstraintMap R)
  | [] => .ok map
  | c :: rest =>
    let entry : R × (ConstraintHandle × Constraint R) :=
      match c with
      | .RequireOne role => (role, (ConstraintHandle.Empty, Constraint.RequireOne role))
      | .Variadic role => (role, (ConstraintHandle.Many [], Constraint.Variadic role))
    if containsRole map entry.1 then .error "role specified more than once"
    else createRolesAux (map ++ [entry]) rest

/-- src/src/soma.rs Soma::create_roles. -/
def createRoles [DecidableEq R] (constraints : List (Constraint R)) : Except String (ConstraintMap R) :=
  createRolesAux [] constraints

/-- src/src/soma.rs Soma::add_role.  Unknown role is an error; a RequireOne
slot accepts a handle only when Empty; a Variadic slot appends.  The Rust
unreachable arm (a Variadic constraint whose handle is not Many) is a panic
in the source; it is modelled as an error and is never hit from states built
by create_roles / add_role. -/
def addRole [DecidableEq R] (map : ConstraintMap R) (cell : Handle) (role : R) :
    Except String (ConstraintMap R) :=
  match lookupRole map role with
  | some (hdl, constraint) =>
    match constraint with
    | .RequireOne r =>
      match hdl with
      | .Empty => .ok (replaceRole map role (.One cell, .RequireOne r))
      | _ => .error "only one cell can be assigned to role"
    | .Variadic r =>
      match hdl with
      | .Many cells => .ok (replaceRole map role (.Many (cells ++ [cell]), .Variadic r))
      | _ => .error "role was configured wrong"
  | none => .error "unexpected role"

/-- src/src/soma.rs Soma::verify_constraints: every RequireOne slot must
hold exactly one handle; Variadic slots always pass. -/
def verifyConstraints : ConstraintMap R → Except String Unit
  | [] => .ok ()
  | e :: rest =>
    match e.2 with
    | (hdl, .RequireOne _) =>
      match hdl with
      | .One _ => verifyConstraints rest
      | _ => .error "role does not meet constraint"
    | (_, .Variadic _) => verifyConstraints rest

/-- src/src/soma.rs Soma: the constraint helper state. -/
structure Soma (M R : Type) where
  effector : Option Effector
  inputs : ConstraintMap R
  outputs : ConstraintMap R
  deriving DecidableEq, Repr

/-- src/src/soma.rs Soma::new. -/
def Soma.new [DecidableEq R] (inputs outputs : List (Constraint R)) : Except String (Soma M R) := do
  let i ← createRoles inputs
  let o ← createRoles outputs
  .ok { effector := none, inputs := i, outputs := o }

/-- src/src/soma.rs Soma::init (private): records the effector once; a
second delivery is an error and leaves the state untouched. -/
def Soma.init (s : Soma M R) (eff : Effector) : Soma M R × Except String Unit :=
  match s.effector with
  | none => ({ s with effector := some eff }, .ok ())
  | some _ => (s, .error "init called twice")

/-- src/src/soma.rs Soma::verify: effector must be set, then both
constraint maps must verify. -/
def Soma.verify (s : Soma M R) : Except String Unit :=
  match s.effector with
  | none => .error "init was never called"
  | some _ =>
    match verifyConstraints s.inputs with
    | .error e => .error e
    | .ok _ => verifyConstraints s.outputs

/-- src/src/soma.rs Soma::update.  Returns the post-state (Rust mutates
through &mut self; every error path in the source bails before any
mutation, so the pre-state is returned there) together with the Result. -/
def Soma.update [DecidableEq R] (s : Soma M R) (msg : Protocol M R) :
    Soma M R × Except String (Option (Protocol M R)) :=
  match msg with
  | .Init eff =>
    match s.init eff with
    | (s2, .ok _) => (s2, .ok none)
    | (s2, .error e) => (s2, .error e)
  | .AddInput input role =>
    match addRole s.inputs input role with
    | .ok m => ({ s with inputs := m }, .ok none)
    | .error e => (s, .error e)
  | .AddOutput output role =>
    match addRole s.outputs output role with
    | .ok m => ({ s with outputs := m }, .ok none)
    | .error e => (s, .error e)
  | .Start =>
    match s.verify with
    | .ok _ => (s, .ok (some .Start))
    | .error e => (s, .error e)
  | other => (s, .ok (some other))

/-- src/src/soma.rs Soma::effector (the public accessor). -/
def Soma.effectorAcc (s : Soma M R) : Except String Effector :=
  match s.effector with
  | some e => .ok e
  | none => .error "effector has not been set"

/-! ## organelle.rs: the composite node -/

/-- Modelled from the spec: Impulse is the impulse enumeration of the newer
vocabulary used by organelle.rs (Init carries an optional parent handle and
the effector; the enumeration itself lives in the crate root, not under
src/).  Err carries the runtime error, modelled as its message string. -/
inductive Impulse (Sig Syn : Type) where
  | Init (parent : Option Handle) (eff : Effector)
  | AddInput (input : Handle) (role : Syn)
  | AddOutput (output : Handle) (role : Syn)
  | Start
  | Payload (src dest : Handle) (msg : Sig)
  | Signal (src : Handle) (msg : Sig)
  | Stop
  | Err (e : String)
  | Probe (dest : Handle)
  deriving DecidableEq, Repr

variable {Sig Syn Sig2 Syn2 : Type}

/-- Modelled from the spec: convert_protocol maps an impulse between two
protocols by converting its payload fields (signal by f, synapse by g) and
leaving handle fields unchanged (its definition lives in the crate root,
not under src/). -/
def convertProtocol (f : Sig → Sig2) (g : Syn → Syn2) : Impulse Sig Syn → Impulse Sig2 Syn2
  | .Init p e => .Init p e
  | .AddInput h r => .AddInput h (g r)
  | .AddOutput h r => .AddOutput h (g r)
  | .Start => .Start
  | .Payload s d m => .Payload s d (f m)
  | .Signal s m => .Signal s (f m)
  | .Stop => .Stop
  | .Err e => .Err e
  | .Probe d => .Probe d

/-- HashMap::get on the organelle's nodes map (child handle to the sending
half of that child's inbound channel). -/
def lookupChan : List (Handle × ChanId) → Handle → Option ChanId
  | [], _ => none
  | e :: rest, h => if e.1 = h then some e.2 else lookupChan rest h

/-- HashMap::contains_key on the organelle's nodes map. -/
def containsChan (nodes : List (Handle × ChanId)) (h : Handle) : Bool :=
  (lookupChan nodes h).isSome

/-- src/src/organelle.rs, routing task, lines 192-212: the actual_src
computation.  A payload from the main child keeps its source when addressed
to the organelle itself or to a local child, and is re-stamped with the
organelle's handle otherwise; any other source is left unchanged. -/
def actualSrc (mainHdl organelleHdl : Handle) (nodes : List (Handle × ChanId))
    (src dest : Handle) : Handle :=
  if src = mainHdl then
    if dest = organelleHdl ∨ containsChan nodes dest then src
    else organelleHdl
  else src

/-- One observable effect of the routing task on one impulse: a send on a
local child's channel (in the organelle's protocol Sig/Syn), a send on the
external sender (in the enclosing protocol Sig2/Syn2), a diagnostic print,
or a panic. -/
inductive RouteAction (Sig Syn Sig2 Syn2 : Type) where
  | sendTo (c : ChanId) (imp : Impulse Sig Syn)
  | sendExternal (c : ChanId) (imp : Impulse Sig2 Syn2)
  | printDiag
  | crash
  deriving DecidableEq, Repr

/-- src/src/organelle.rs, the routing task spawned by Organelle::init
(lines 187-257), acting on one impulse read from the routing queue.
Payloads are re-stamped via actualSrc and dispatched to the main child (dest
is the organelle), to a local child, or externally after protocol
conversion; Probe prints a diagnostic; Stop and Err are forwarded
externally.  crash covers the source's unwrap on a missing main sender and
the unimplemented arm for every other variant. -/
def routeStep (mainHdl organelleHdl : Handle) (nodes : List (Handle × ChanId))
    (externalSender : ChanId) (f : Sig → Sig2) (g : Syn → Syn2) :
    Impulse Sig Syn → RouteAction Sig Syn Sig2 Syn2
  | .Payload src dest msg =>
    let aSrc := actualSrc mainHdl organelleHdl nodes src dest
    if dest = organelleHdl then
      match lookupChan nodes mainHdl with
      | some c => .sendTo c (.Signal aSrc msg)
      | none => .crash
    else if containsChan nodes dest then
      match lookupChan nodes dest with
      | some c => .sendTo c (.Signal aSrc msg)
      | none => .crash
    else
      .sendExternal externalSender (convertProtocol f g (.Payload aSrc dest msg))
  | .Probe _ => .printDiag
  | .Stop => .sendExternal externalSender (Impulse.Stop : Impulse Sig2 Syn2)
  | .Err e => .sendExternal externalSender (Impulse.Err e : Impulse Sig2 Syn2)
  | _ => .crash

/-- The action Organelle::update (src/src/organelle.rs lines 354-377) takes
for a given impulse; none models the unreachable arm, which panics.  The
state transition performed by each handled arm is carried out by the
organelle operations and is not re-modelled here. -/
inductive OrgUpdAction (Sig Syn : Type) where
  | doInit (parent : Option Handle) (eff : Effector)
  | doAddInput (input : Handle) (role : Syn)
  | doAddOutput (output : Handle) (role : Syn)
  | doStart
  | doForwardSignal (src : Handle) (msg : Sig)
  deriving DecidableEq, Repr

/-- src/src/organelle.rs Organelle::update, the match on the impulse:
Init, AddInput, AddOutput, Start and Signal are handled; every other
variant (Payload, Stop, Err, Probe) falls into the unreachable arm. -/
def organelleUpdateArm : Impulse Sig Syn → Option (OrgUpdAction Sig Syn)
  | .Init p e => some (.doInit p e)
  | .AddInput h r => some (.doAddInput h r)
  | .AddOutput h r => some (.doAddOutput h r)
  | .Start => some .doStart
  | .Signal s m => some (.doForwardSignal s m)
  | _ => none

/-- Outcome of one iteration of the top-level impulse-processing loop. -/
inductive StepResult where
  | next
  | stopOk
  | stopWithE (e : String)
  | crash
  deriving DecidableEq, Repr

/-- src/src/organelle.rs Organelle::process_impulses (lines 300-345), one
loop iteration.  Init/AddInput/AddOutput/Start go to Organelle::update;
Payload and Probe first assert dest equals the main soma (a failed assert
panics: crash) and then go to update (Probe reaches update's unreachable
arm: crash); Stop returns Ok, Err returns the error; a Signal on the main
queue is unreachable.  update's own state transition and Result are not
re-modelled (its arms that are reached here and are handled never return
an impulse-shape error relevant to these claims). -/
def processImpulseStep (mainSoma : Handle) : Impulse Sig Syn → StepResult
  | .Init p e =>
    match organelleUpdateArm (Impulse.Init p e : Impulse Sig Syn) with
    | some _ => .next
    | none => .crash
  | .AddInput h r =>
    match organelleUpdateArm (Impulse.AddInput h r : Impulse Sig Syn) with
    | some _ => .next
    | none => .crash
  | .AddOutput h r =>
    match organelleUpdateArm (Impulse.AddOutput h r : Impulse Sig Syn) with
    | some _ => .next
    | none => .crash
  | .Start =>
    match organelleUpdateArm (Impulse.Start : Impulse Sig Syn) with
    | some _ => .next
    | none => .crash
  | .Payload src dest msg =>
    if dest = mainSoma then
      match organelleUpdateArm (Impulse.Signal src msg : Impulse Sig Syn) with
      | some _ => .next
      | none => .crash
    else .crash
  | .Probe dest =>
    if dest = mainSoma then
      match organelleUpdateArm (Impulse.Probe dest : Impulse Sig Syn) with
      | some _ => .next
      | none => .crash
    else .crash
  | .Stop => .stopOk
  | .Err e => .stopWithE e
  | .Signal _ _ => .crash

/-! ### Channel wiring of new / add_soma / init

Fresh handles (Uuid::new_v4) and fresh channels (mpsc::channel) are drawn
from explicit counters.  What matters to the claims is only the identity of
each endpoint: which channel the drive task captured as its error sink, and
which channel is the routing queue created at Init. -/

/-- Allocator for fresh channel ids and fresh handles. -/
structure Alloc where
  nextChan : Nat
  nextHdl : Nat
  deriving DecidableEq, Repr

/-- The task spawned by add_soma for one child: it reads the child's
inbound channel and, on an update error, emits Impulse::Err on errSink,
the clone of the organelle's sender it captured when add_soma ran. -/
structure DriveTask where
  owner : Handle
  inbound : ChanId
  errSink : ChanId
  deriving DecidableEq, Repr

/-- src/src/organelle.rs Organelle: the composite's state (reactor handle
omitted; the receiver is recorded by its channel id). -/
structure OrganelleSt (Syn : Type) where
  sender : ChanId
  receiver : Option ChanId
  parent : Option Handle
  effector : Option Effector
  mainHdl : Handle
  connections : List (Handle × Handle × Syn)
  nodes : List (Handle × ChanId)
  deriving DecidableEq, Repr

/-- src/src/organelle.rs Organelle::add_soma: mints a fresh handle, clones
the organelle's sender (the error sink of the spawned drive task), creates
the child's inbound channel, spawns the drive task, and registers the
sending half in the nodes map. -/
def addSoma (a : Alloc) (st : OrganelleSt Syn) :
    Alloc × OrganelleSt Syn × Handle × DriveTask :=
  let handle := a.nextHdl
  let organelleSender := st.sender
  let tx := a.nextChan
  (⟨a.nextChan + 1, a.nextHdl + 1⟩,
   { st with nodes := st.nodes ++ [(handle, tx)] },
   handle,
   ⟨handle, tx, organelleSender⟩)

/-- src/src/organelle.rs Organelle::new: creates the organelle's own
channel, a temporary main handle, then adds the main soma and records its
handle as mainHdl. -/
def newOrganelle (a : Alloc) : Alloc × OrganelleSt Syn × Handle × DriveTask :=
  let tx := a.nextChan
  let tmpHdl := a.nextHdl
  let st0 : OrganelleSt Syn :=
    { sender := tx, receiver := some tx, parent := none, effector := none,
      mainHdl := tmpHdl, connections := [], nodes := [] }
  let r := addSoma ⟨a.nextChan + 1, a.nextHdl + 1⟩ st0
  (r.1, { r.2.1 with mainHdl := r.2.2.1 }, r.2.2.1, r.2.2.2)

/-- Configuration captured by the routing task spawned at Init. -/
structure RoutingTask where
  mainHdl : Handle
  organelleHdl : Handle
  externalSender : ChanId
  nodes : List (Handle × ChanId)
  queueRx : ChanId
  deriving DecidableEq, Repr

/-- src/src/organelle.rs Organelle::init: stores the parent, creates the
fresh internal routing channel, rebuilds the effector around its sending
half, delivers Init to every child and the pending connection impulses,
and spawns the routing task over a snapshot of the nodes map.  Returns
the post-state, the routing task's configuration, and the impulses
delivered to children (paired with the destination handle). -/
def initOrganelle (Sig : Type) {Syn : Type} (a : Alloc) (st : OrganelleSt Syn)
    (parent : Option Handle) (eff : Effector) :
    Alloc × OrganelleSt Syn × RoutingTask × List (Handle × Impulse Sig Syn) :=
  let organelleHdl := eff.thisSoma
  let queue := a.nextChan
  let st2 := { st with parent := parent, effector := some ⟨organelleHdl, queue⟩ }
  let inits : List (Handle × Impulse Sig Syn) :=
    st.nodes.map fun p => (p.1, .Init (some organelleHdl) ⟨p.1, queue⟩)
  let conns : List (Handle × Impulse Sig Syn) :=
    (st.connections.map fun c =>
      [((c.1, Impulse.AddOutput c.2.1 c.2.2) : Handle × Impulse Sig Syn),
       (c.2.1, Impulse.AddInput c.1 c.2.2)]).flatten
  (⟨a.nextChan + 1, a.nextHdl⟩, st2,
   ⟨st.mainHdl, organelleHdl, eff.sender, st.nodes, queue⟩,
   inits ++ conns)

/-- Error::with_chain(e, ErrorKind::SomaError): the wrapping the drive task
applies to a child's update error. -/
def wrapChain (e : String) : String := "SomaError: " ++ e

/-- src/src/organelle.rs, the drive task body spawned by add_soma (lines
98-121): each impulse read from the child's inbound channel is protocol-
converted and given to the child's update; on success the loop continues
with the updated child, on failure the task sends Impulse::Err of the
wrapped error on its captured sink and returns.  The result is the list of
emissions (channel, impulse) and the number of impulses updated
successfully. -/
def driveRun (conv : Impulse Sig Syn → Impulse Sig2 Syn2)
    (upd : σ → Impulse Sig2 Syn2 → Except String σ) (errSink : ChanId) :
    σ → List (Impulse Sig Syn) → List (ChanId × Impulse Sig Syn) × Nat
  | _, [] => ([], 0)
  | s, imp :: rest =>
    match upd s (conv imp) with
    | .ok s2 =>
      let r := driveRun conv upd errSink s2 rest
      (r.1, r.2 + 1)
    | .error e => ([(errSink, .Err (wrapChain e))], 0)

/-! ### A concrete wiring scenario

An organelle built from allocator ⟨0, 0⟩ (its own channel gets id 0, the
main child handle 1 with inbound channel 1), one further child added
(handle 2, inbound channel 2), then initialized from its enclosing scope as
handle 77 with external sender 50 (the routing queue gets channel id 3). -/

/-- A child whose update fails on every impulse. -/
def failUpdate : Unit → Impulse Nat Nat → Except String Unit :=
  fun _ _ => .error "boom"

def scenNew : Alloc × OrganelleSt Nat × Handle × DriveTask :=
  newOrganelle ⟨0, 0⟩

def scenAdd : Alloc × OrganelleSt Nat × Handle × DriveTask :=
  addSoma scenNew.1 scenNew.2.1

def scenInit : Alloc × OrganelleSt Nat × RoutingTask × List (Handle × Impulse Nat Nat) :=
  initOrganelle Nat scenAdd.1 scenAdd.2.1 none ⟨77, 50⟩

/-! ## Helper lemmas -/

/-- An entry of a constraint map that makes verification fail: a RequireOne
constraint whose slot does not hold exactly one handle. -/
def unfilledReqOne : (R × (ConstraintHandle × Constraint R)) → Bool
  | (_, (.One _, .RequireOne _)) => false
  | (_, (_, .RequireOne _)) => true
  | (_, (_, .Variadic _)) => false

theorem verifyConstraints_ok_iff (m : ConstraintMap R) :
    verifyConstraints m = .ok () ↔ ∀ x ∈ m, unfilledReqOne x = false := by
  induction m with
  | nil => simp [verifyConstraints]
  | cons e rest ih =>
    obtain ⟨role, hdl, c⟩ := e
    cases c with
    | RequireOne r =>
      cases hdl <;> simp [verifyConstraints, unfilledReqOne, ih]
    | Variadic r =>
      simp [verifyConstraints, unfilledReqOne, ih]

theorem verify_ok_iff (s : Soma M R) :
    s.verify = .ok ()
      ↔ (s.effector ≠ none ∧ (∀ x ∈ s.inputs, unfilledReqOne x = false)
          ∧ (∀ x ∈ s.outputs, unfilledReqOne x = false)) := by
  cases heff : s.effector with
  | none => simp [Soma.verify, heff]
  | some eff =>
    constructor
    · intro h
      simp only [Soma.verify, heff] at h
      cases hvi : verifyConstraints s.inputs with
      | error e => simp [hvi] at h
      | ok u =>
        cases u
        simp only [hvi] at h
        exact ⟨by simp [heff], (verifyConstraints_ok_iff _).mp hvi,
          (verifyConstraints_ok_iff _).mp h⟩
    · rintro ⟨hne, hi, ho⟩
      have hvi := (verifyConstraints_ok_iff s.inputs).mpr hi
      have hvo := (verifyConstraints_ok_iff s.outputs).mpr ho
      simp [Soma.verify, heff, hvi, hvo]

theorem lookupRole_replaceRole [DecidableEq R] (m : ConstraintMap R) (role : R)
    (v old : ConstraintHandle × Constraint R) (h : lookupRole m role = some old) :
    lookupRole (replaceRole m role v) role = some v := by
  induction m with
  | nil => simp [lookupRole] at h
  | cons e rest ih =>
    by_cases he : e.1 = role
    · simp [replaceRole, lookupRole, he]
    · simp only [lookupRole, he, if_false, ite_false] at h
      simp [replaceRole, lookupRole, he, ih h]

/-! ## Claim theorems -/

/-- C1: the routing task rewrites Payload sources exactly as claimed: a
payload from the main child addressed neither to the organelle nor to a
local child is re-stamped with the organelle's handle; a payload from the
main child addressed to the organelle or a local child keeps its source;
any source other than the main child is kept. -/
theorem payload_source_rewrite (m o : Handle) (nodes : List (Handle × ChanId))
    (src dest : Handle) :
    (src = m → dest ≠ o → containsChan nodes dest = false →
      actualSrc m o nodes src dest = o)
    ∧ (src = m → (dest = o ∨ containsChan nodes dest = true) →
      actualSrc m o nodes src dest = src)
    ∧ (src ≠ m → actualSrc m o nodes src dest = src) := by
  refine ⟨?_, ?_, ?_⟩
  · intro h1 h2 h3; simp [actualSrc, h1, h2, h3]
  · intro h1 h2
    rcases h2 with h | h <;> simp [actualSrc, h1, h]
  · intro h1; simp [actualSrc, h1]

/-- Witness for C1: the three source-rewrite cases evaluated on concrete
handles via payload_source_rewrite. -/
theorem payload_source_rewrite_check :
    actualSrc 1 9 [(2, 5)] 1 7 = 9
    ∧ actualSrc 1 9 [(2, 5)] 1 2 = 1
    ∧ actualSrc 1 9 [(2, 5)] 3 7 = 3 := by
  refine ⟨?_, ?_, ?_⟩
  · exact (payload_source_rewrite 1 9 [(2, 5)] 1 7).1 rfl (by decide) (by decide)
  · exact (payload_source_rewrite 1 9 [(2, 5)] 1 2).2.1 rfl (Or.inr (by decide))
  · exact (payload_source_rewrite 1 9 [(2, 5)] 3 7).2.2 (by decide)

/-- C2: after source rewriting, the routing task dispatches a Payload to
the main child's inbound sender when dest is the organelle's handle, to the
destination child's inbound sender when dest is a key of the nodes map, and
otherwise protocol-converts it and sends it on the external effector's
sender. -/
theorem payload_dispatch {Sig Syn Sig2 Syn2 : Type} (m o : Handle)
    (nodes : List (Handle × ChanId)) (ext : ChanId) (f : Sig → Sig2)
    (g : Syn → Syn2) (src dest : Handle) (msg : Sig) (mc : ChanId)
    (hmc : lookupChan nodes m = some mc) :
    (dest = o →
      routeStep m o nodes ext f g (.Payload src dest msg)
        = .sendTo mc (.Signal (actualSrc m o nodes src dest) msg))
    ∧ (∀ c, dest ≠ o → lookupChan nodes dest = some c →
      routeStep m o nodes ext f g (.Payload src dest msg)
        = .sendTo c (.Signal (actualSrc m o nodes src dest) msg))
    ∧ (dest ≠ o → containsChan nodes dest = false →
      routeStep m o nodes ext f g (.Payload src dest msg)
        = .sendExternal ext (convertProtocol f g
            (.Payload (actualSrc m o nodes src dest) dest msg))) := by
  refine ⟨?_, ?_, ?_⟩
  · intro hdo
    simp [routeStep, hdo, hmc]
  · intro c hne hlc
    simp [routeStep, hne, containsChan, hlc]
  · intro hne hnc
    simp [routeStep, hne, hnc]

/-- Witness for C2: the three dispatch cases evaluated on concrete handles
via payload_dispatch (main child 1 on channel 5, a second child 2 on
channel 6, organelle handle 9, external sender 50). -/
theorem payload_dispatch_check :
    routeStep 1 9 [(1, 5), (2, 6)] 50
        (fun n : Nat => n + 1) (id : Nat → Nat) (.Payload 2 9 (3 : Nat))
      = .sendTo 5 (.Signal 2 3)
    ∧ routeStep 1 9 [(1, 5), (2, 6)] 50
        (fun n : Nat => n + 1) (id : Nat → Nat) (.Payload 1 2 (3 : Nat))
      = .sendTo 6 (.Signal 1 3)
    ∧ routeStep 1 9 [(1, 5), (2, 6)] 50
        (fun n : Nat => n + 1) (id : Nat → Nat) (.Payload 1 7 (3 : Nat))
      = .sendExternal 50 (.Payload 9 7 4) := by
  refine ⟨?_, ?_, ?_⟩
  · exact (payload_dispatch 1 9 [(1, 5), (2, 6)] 50 (fun n : Nat => n + 1)
      (id : Nat → Nat) 2 9 3 5 (by decide)).1 rfl
  · exact (payload_dispatch 1 9 [(1, 5), (2, 6)] 50 (fun n : Nat => n + 1)
      (id : Nat → Nat) 1 2 3 5 (by decide)).2.1 6 (by decide) (by decide)
  · exact (payload_dispatch 1 9 [(1, 5), (2, 6)] 50 (fun n : Nat => n + 1)
      (id : Nat → Nat) 1 7 3 5 (by decide)).2.2 (by decide) (by decide)

/-- C3: the constraint helper's update(Start) errors if and only if Init
was never delivered or some declared RequireOne slot (input or output) is
not bound to exactly one handle; Variadic slots never appear in the failure
condition, so they never make verification fail. -/
theorem start_error_iff [DecidableEq R] (s : Soma M R) :
    (∃ e, (s.update Protocol.Start).2 = Except.error e)
      ↔ (s.effector = none
          ∨ (∃ x ∈ s.inputs, unfilledReqOne x = true)
          ∨ (∃ x ∈ s.outputs, unfilledReqOne x = true)) := by
  have h1 : (∃ e, (s.update Protocol.Start).2 = Except.error e)
      ↔ ¬ s.verify = .ok () := by
    cases hv : s.verify with
    | ok u => cases u; simp [Soma.update, hv]
    | error e => simp [Soma.update, hv]
  rw [h1, verify_ok_iff]
  simp only [not_and_or, not_forall, ne_eq, not_not, Bool.not_eq_false,
    exists_prop]

/-- Witness for C3: a helper with its effector set, one Variadic input role
holding no handles and one Variadic output role holding two handles does
not error on Start (so Variadic slots with zero or many handles pass),
while a helper with an unfilled RequireOne input errors; both derived via
start_error_iff. -/
theorem start_error_iff_check :
    ¬ (∃ e, (Soma.update (M := Nat)
        ⟨some ⟨0, 0⟩, [(4, (ConstraintHandle.Many [], Constraint.Variadic 4))],
          [(5, (ConstraintHandle.Many [8, 9], Constraint.Variadic 5))]⟩
        Protocol.Start).2 = Except.error e)
    ∧ (∃ e, (Soma.update (M := Nat)
        ⟨some ⟨0, 0⟩, [(4, (ConstraintHandle.Empty, Constraint.RequireOne 4))],
          []⟩ Protocol.Start).2 = Except.error e) := by
  constructor
  · rw [start_error_iff]
    decide
  · rw [start_error_iff]
    decide

/-- Counterexample to C6: on a valid Start (effector set, no constraints,
so verification succeeds) the helper's update returns Some(Start), not
None as the claim states for all four lifecycle impulses. -/
theorem valid_start_not_consumed :
    (Soma.verify (M := Nat) (R := Nat) ⟨some ⟨0, 0⟩, [], []⟩ = Except.ok ())
    ∧ (Soma.update (M := Nat) (R := Nat) ⟨some ⟨0, 0⟩, [], []⟩ Protocol.Start).2
        = Except.ok (some Protocol.Start)
    ∧ (Soma.update (M := Nat) (R := Nat) ⟨some ⟨0, 0⟩, [], []⟩ Protocol.Start).2
        ≠ Except.ok none := by
  refine ⟨rfl, rfl, ?_⟩
  simp [Soma.update, Soma.verify, verifyConstraints]

/-- C6 amended: a valid Init, AddInput or AddOutput is consumed (update
returns None); a valid Start is consumed but re-emitted as Some(Start);
every other impulse is returned unchanged wrapped in Some. -/
theorem helper_update_consumption [DecidableEq R] (s : Soma M R)
    (eff : Effector) (hdl : Handle) (role : R) :
    (s.effector = none → (s.update (Protocol.Init eff)).2 = Except.ok none)
    ∧ (∀ m2, addRole s.inputs hdl role = Except.ok m2 →
        (s.update (Protocol.AddInput hdl role)).2 = Except.ok none)
    ∧ (∀ m2, addRole s.outputs hdl role = Except.ok m2 →
        (s.update (Protocol.AddOutput hdl role)).2 = Except.ok none)
    ∧ (s.verify = Except.ok () →
        (s.update Protocol.Start).2 = Except.ok (some Protocol.Start))
    ∧ (∀ src dest m, (s.update (Protocol.Payload src dest m)).2
        = Except.ok (some (Protocol.Payload src dest m)))
    ∧ (∀ src m, (s.update (Protocol.Signal src m)).2
        = Except.ok (some (Protocol.Signal src m)))
    ∧ ((s.update Protocol.Stop).2 = Except.ok (some Protocol.Stop))
    ∧ (∀ e, (s.update (Protocol.Err e)).2 = Except.ok (some (Protocol.Err e)))
    ∧ (∀ d, (s.update (Protocol.Probe d)).2
        = Except.ok (some (Protocol.Probe d))) := by
  refine ⟨?_, ?_, ?_, ?_, ?_, ?_, ?_, ?_, ?_⟩
  · intro h; simp [Soma.update, Soma.init, h]
  · intro m2 h; simp [Soma.update, h]
  · intro m2 h; simp [Soma.update, h]
  · intro h; simp [Soma.update, h]
  · intro src dest m; simp [Soma.update]
  · intro src m; simp [Soma.update]
  · simp [Soma.update]
  · intro e; simp [Soma.update]
  · intro d; simp [Soma.update]

/-- Witness for C6 (amended): the consumption behaviour evaluated on a
concrete helper via helper_update_consumption. -/
theorem helper_update_consumption_check :
    (Soma.update (M := Nat) (R := Nat) ⟨none, [], []⟩ (Protocol.Init ⟨0, 0⟩)).2
      = Except.ok none
    ∧ (Soma.update (M := Nat)
        ⟨none, [(4, (ConstraintHandle.Empty, Constraint.RequireOne 4))], []⟩
        (Protocol.AddInput 7 4)).2 = Except.ok none
    ∧ (Soma.update (M := Nat) (R := Nat) ⟨some ⟨0, 0⟩, [], []⟩
        (Protocol.Signal 3 11)).2 = Except.ok (some (Protocol.Signal 3 11)) := by
  refine ⟨?_, ?_, ?_⟩
  · exact (helper_update_consumption ⟨none, [], []⟩ ⟨0, 0⟩ 7 4).1 rfl
  · exact (helper_update_consumption
      ⟨none, [(4, (ConstraintHandle.Empty, Constraint.RequireOne 4))], []⟩
      ⟨0, 0⟩ 7 4).2.1
      [(4, (ConstraintHandle.One 7, Constraint.RequireOne 4))] rfl
  · exact (helper_update_consumption (M := Nat) (R := Nat) ⟨some ⟨0, 0⟩, [], []⟩
      ⟨0, 0⟩ 7 4).2.2.2.2.2.1 3 11

/-- C7: update(Start) returns Some(Start) exactly when verification
succeeds, and propagates the verification error otherwise — so Some(Start)
is observed only after all constraints have been checked. -/
theorem start_reemitted_after_verification [DecidableEq R] (s : Soma M R) :
    ((s.update Protocol.Start).2 = Except.ok (some Protocol.Start)
      ↔ s.verify = Except.ok ())
    ∧ (∀ e, s.verify = Except.error e →
        (s.update Protocol.Start).2 = Except.error e) := by
  constructor
  · cases hv : s.verify with
    | ok u => cases u; simp [Soma.update, hv]
    | error e => simp [Soma.update, hv]
  · intro e hv; simp [Soma.update, hv]

/-- Witness for C7: a helper whose verification succeeds re-emits
Some(Start), via start_reemitted_after_verification. -/
theorem start_reemitted_check :
    (Soma.update (M := Nat) (R := Nat) ⟨some ⟨0, 0⟩, [], []⟩ Protocol.Start).2
      = Except.ok (some Protocol.Start) := by
  exact (start_reemitted_after_verification
    (M := Nat) (R := Nat) ⟨some ⟨0, 0⟩, [], []⟩).1.mpr rfl

/-- C8: add_role returns the "unexpected role" error when the role was
never declared, the "only one cell" error when a RequireOne slot is
already bound, and appends the handle to a Variadic slot's list. -/
theorem add_role_cases [DecidableEq R] (map : ConstraintMap R) (cell : Handle)
    (role : R) :
    (lookupRole map role = none →
      addRole map cell role = Except.error "unexpected role")
    ∧ (∀ h r, lookupRole map role = some (.One h, .RequireOne r) →
      addRole map cell role = Except.error "only one cell can be assigned to role")
    ∧ (∀ hs r, lookupRole map role = some (.Many hs, .Variadic r) →
      addRole map cell role
          = Except.ok (replaceRole map role (.Many (hs ++ [cell]), .Variadic r))
        ∧ lookupRole (replaceRole map role (.Many (hs ++ [cell]), .Variadic r)) role
          = some (.Many (hs ++ [cell]), .Variadic r)) := by
  refine ⟨?_, ?_, ?_⟩
  · intro h; simp [addRole, h]
  · intro h r hl; simp [addRole, hl]
  · intro hs r hl
    exact ⟨by simp [addRole, hl], lookupRole_replaceRole map role _ _ hl⟩

/-- Witness for C8: the three add_role cases evaluated on a concrete map
via add_role_cases. -/
theorem add_role_cases_check :
    addRole (R := Nat)
        [(4, (ConstraintHandle.One 7, Constraint.RequireOne 4)),
         (5, (ConstraintHandle.Many [8], Constraint.Variadic 5))] 9 6
      = Except.error "unexpected role"
    ∧ addRole (R := Nat)
        [(4, (ConstraintHandle.One 7, Constraint.RequireOne 4)),
         (5, (ConstraintHandle.Many [8], Constraint.Variadic 5))] 9 4
      = Except.error "only one cell can be assigned to role"
    ∧ addRole (R := Nat)
        [(4, (ConstraintHandle.One 7, Constraint.RequireOne 4)),
         (5, (ConstraintHandle.Many [8], Constraint.Variadic 5))] 9 5
      = Except.ok
          [(4, (ConstraintHandle.One 7, Constraint.RequireOne 4)),
           (5, (ConstraintHandle.Many [8, 9], Constraint.Variadic 5))] := by
  refine ⟨?_, ?_, ?_⟩
  · exact (add_role_cases _ 9 6).1 (by decide)
  · exact (add_role_cases _ 9 4).2.1 7 4 (by decide)
  · exact ((add_role_cases
      [(4, (ConstraintHandle.One 7, Constraint.RequireOne 4)),
       (5, (ConstraintHandle.Many [8], Constraint.Variadic 5))] 9 5).2.2
      [8] 5 (by decide)).1

/-- C9: a second Init delivered to the constraint helper is rejected with
the "init called twice" error; the state is unchanged and the effector
accessor still returns the first effector. -/
theorem second_init_rejected [DecidableEq R] (s : Soma M R) (e e2 : Effector)
    (h : s.effector = some e) :
    (s.update (Protocol.Init e2)).2 = Except.error "init called twice"
    ∧ (s.update (Protocol.Init e2)).1 = s
    ∧ (s.update (Protocol.Init e2)).1.effectorAcc = Except.ok e := by
  refine ⟨?_, ?_, ?_⟩ <;> simp [Soma.update, Soma.init, Soma.effectorAcc, h]

/-- Witness for C9: a helper holding effector ⟨3, 5⟩ rejects a second Init
carrying ⟨4, 6⟩ and keeps the first, via second_init_rejected. -/
theorem second_init_rejected_check :
    (Soma.update (M := Nat) (R := Nat) ⟨some ⟨3, 5⟩, [], []⟩
        (Protocol.Init ⟨4, 6⟩)).2 = Except.error "init called twice"
    ∧ (Soma.update (M := Nat) (R := Nat) ⟨some ⟨3, 5⟩, [], []⟩
        (Protocol.Init ⟨4, 6⟩)).1.effectorAcc = Except.ok ⟨3, 5⟩ := by
  exact ⟨(second_init_rejected ⟨some ⟨3, 5⟩, [], []⟩ ⟨3, 5⟩ ⟨4, 6⟩ rfl).1,
    (second_init_rejected ⟨some ⟨3, 5⟩, [], []⟩ ⟨3, 5⟩ ⟨4, 6⟩ rfl).2.2⟩

/-- C10: whenever the constraint helper's update returns an error, the
post-state equals the pre-state: the stored effector and both constraint
maps are untouched. -/
theorem update_error_state_unchanged [DecidableEq R] (s : Soma M R)
    (msg : Protocol M R) (e : String)
    (h : (s.update msg).2 = Except.error e) :
    (s.update msg).1 = s := by
  cases msg with
  | Init eff =>
    cases heff : s.effector <;> simp [Soma.update, Soma.init, heff] at h ⊢
  | AddInput hdl role =>
    cases har : addRole s.inputs hdl role <;> simp [Soma.update, har] at h ⊢
  | AddOutput hdl role =>
    cases har : addRole s.outputs hdl role <;> simp [Soma.update, har] at h ⊢
  | Start =>
    cases hv : s.verify with
    | ok u => cases u; simp [Soma.update, hv] at h
    | error e2 => simp [Soma.update, hv]
  | Payload src dest m => simp [Soma.update] at h
  | Signal src m => simp [Soma.update] at h
  | Stop => simp [Soma.update] at h
  | Err e2 => simp [Soma.update] at h
  | Probe d => simp [Soma.update] at h

/-- Witness for C10: a duplicate-Init error leaves a concrete helper's
state exactly as it was, via update_error_state_unchanged. -/
theorem update_error_state_unchanged_check :
    (Soma.update (M := Nat)
        ⟨some ⟨3, 5⟩, [(4, (ConstraintHandle.Empty, Constraint.RequireOne 4))], []⟩
        (Protocol.Init ⟨4, 6⟩)).1
      = ⟨some ⟨3, 5⟩, [(4, (ConstraintHandle.Empty, Constraint.RequireOne 4))], []⟩ := by
  exact update_error_state_unchanged
    ⟨some ⟨3, 5⟩, [(4, (ConstraintHandle.Empty, Constraint.RequireOne 4))], []⟩
    (Protocol.Init ⟨4, 6⟩) "init called twice" rfl

/-- C4 (code bug): a Probe addressed to the main child passes the
assert in process_impulses but is then handed to Organelle::update, whose
match has no Probe arm: the unreachable arm panics, so the loop crashes
instead of printing a diagnostic and continuing. -/
theorem probe_main_crashes_top_loop :
    processImpulseStep 4 (Impulse.Probe 4 : Impulse Nat Nat)
      = StepResult.crash
    ∧ organelleUpdateArm (Impulse.Probe 4 : Impulse Nat Nat) = none := by
  exact ⟨rfl, rfl⟩

/-- Counterexample to C5: in the concrete scenario, the drive task of the
child added by add_soma captured the organelle's construction-time sender
(channel 0) as its error sink; the routing queue created at Init is
channel 3; on a failing update the Err is emitted on channel 0, not on the
routing queue. -/
theorem drive_err_not_into_routing_queue :
    scenAdd.2.2.2.errSink = scenNew.2.1.sender
    ∧ scenInit.2.2.1.queueRx ≠ scenAdd.2.2.2.errSink
    ∧ driveRun id failUpdate scenAdd.2.2.2.errSink () [Impulse.Start]
        = ([(scenNew.2.1.sender, Impulse.Err (wrapChain "boom"))], 0) := by
  refine ⟨rfl, by decide, rfl⟩

/-- C5 amended: the drive task spawned by add_soma captures the
organelle's own inbound sender (the channel created at construction, which
add_soma and init never reassign) as its error sink; when the child's
update fails, it emits Impulse::Err of the wrapped error there and
terminates without processing further impulses; the routing queue created
at Init is a fresh channel distinct from that sink. -/
theorem drive_err_into_own_queue {Sig Syn Sig2 Syn2 σ : Type}
    (a : Alloc) (st : OrganelleSt Syn)
    (conv : Impulse Sig Syn → Impulse Sig2 Syn2)
    (upd : σ → Impulse Sig2 Syn2 → Except String σ) (s : σ)
    (imp : Impulse Sig Syn) (rest : List (Impulse Sig Syn)) (e : String)
    (herr : upd s (conv imp) = Except.error e) :
    (addSoma a st).2.2.2.errSink = st.sender
    ∧ (addSoma a st).2.1.sender = st.sender
    ∧ (∀ parent eff,
        (initOrganelle Sig a st parent eff).2.1.sender = st.sender)
    ∧ driveRun conv upd (addSoma a st).2.2.2.errSink s (imp :: rest)
        = ([(st.sender, Impulse.Err (wrapChain e))], 0)
    ∧ (∀ parent eff, st.sender < a.nextChan →
        (initOrganelle Sig a st parent eff).2.2.1.queueRx ≠ st.sender) := by
  refine ⟨rfl, rfl, fun parent eff => rfl, ?_, ?_⟩
  · simp [driveRun, herr, addSoma]
  · intro parent eff hlt
    have hq : (initOrganelle Sig a st parent eff).2.2.1.queueRx
        = a.nextChan := rfl
    rw [hq]
    exact ne_of_gt hlt

/-- Witness for C5 (amended): the emission of the wrapped error on the
construction-time channel, evaluated on the concrete scenario via
drive_err_into_own_queue. -/
theorem drive_err_into_own_queue_check :
    driveRun id failUpdate (addSoma scenNew.1 scenNew.2.1).2.2.2.errSink ()
        [Impulse.Start]
      = ([(scenNew.2.1.sender, Impulse.Err (wrapChain "boom"))], 0) := by
  exact (drive_err_into_own_queue scenNew.1 scenNew.2.1 id failUpdate ()
    Impulse.Start [] "boom" rfl).2.2.2.1

end OrganelleSpec
